import Mathlib

/-!
Shallow embedding of `src/props.c` (btrfs-progs property get/set interface):
the property registry, the four property handlers and the device resolver.
External collaborators (libc, kernel ioctls, xattr syscalls, btrfs-util
library calls) are modelled as explicit parameters carrying their outcomes;
machine integers (`u64`) are `Nat` with explicit truncation to 64 bits where
the source relies on the width.
-/

namespace Props

/-! ### errno values (Linux), as used by the source -/

def EPERM : Nat := 1
def ENOMEM : Nat := 12
def ENODEV : Nat := 19
def EINVAL : Nat := 22
def ENODATA : Nat := 61

/-- `#define ENOATTR ENODATA` (src/props.c line 39). -/
def ENOATTR : Nat := ENODATA

/-! ### Device allocation-hint constants

Modelled from the spec: the constants `BTRFS_DEV_ALLOCATION_MASK`,
`BTRFS_DEV_ALLOCATION_PREFERRED_METADATA`, `BTRFS_DEV_ALLOCATION_METADATA_ONLY`,
`BTRFS_DEV_ALLOCATION_PREFERRED_DATA`, `BTRFS_DEV_ALLOCATION_DATA_ONLY`,
`BTRFS_DEV_PROPERTY_TYPE` and `BTRFS_DEV_PROPERTY_READ` come from
`kernel-shared/ctree.h`, which is not under `src/`.  Per the spec (§3) the
four named classes are packed into a fixed sub-range of a larger device
property bitmask; the values below realise that: a 3-bit sub-mask holding
four distinct in-mask class values, and two distinct selector bits. -/

def BTRFS_DEV_ALLOCATION_MASK_BIT_COUNT : Nat := 3

def BTRFS_DEV_ALLOCATION_MASK : Nat := 2 ^ BTRFS_DEV_ALLOCATION_MASK_BIT_COUNT - 1

def BTRFS_DEV_ALLOCATION_PREFERRED_METADATA : Nat := 1
def BTRFS_DEV_ALLOCATION_METADATA_ONLY : Nat := 2
def BTRFS_DEV_ALLOCATION_PREFERRED_DATA : Nat := 0
def BTRFS_DEV_ALLOCATION_DATA_ONLY : Nat := 3

def BTRFS_DEV_PROPERTY_TYPE : Nat := 1
def BTRFS_DEV_PROPERTY_READ : Nat := 2

/-- All 64 bits set: `(u64)-1`.  Used to embed the C bitwise complement
`~m` on `u64` as `UINT64_FULL ^^^ m`. -/
def UINT64_FULL : Nat := 2 ^ 64 - 1

/-- C complement `~m` at `u64` width. -/
def not64 (m : Nat) : Nat := UINT64_FULL ^^^ m

/-! ### Property registry (src/props.c lines 334-362) -/

/-- Identity of a handler function stored in the registry table. -/
inductive HandlerId where
  | read_only
  | label
  | compression
  | allocation_hint
deriving DecidableEq

/-- Modelled from the spec: the object-type tags of `enum prop_object_type`
are declared in `props.h`, which is not under `src/`.  The spec (§3) makes
them a set of tags {subvolume, device, root, inode}; the registry combines
them with `|`, so they are embedded as distinct single-bit flags. -/
def prop_object_dev : Nat := 1

def prop_object_root : Nat := 2
def prop_object_subvol : Nat := 4
def prop_object_inode : Nat := 8

/-- One row of `struct prop_handler`.  A `none` in `name`/`desc`/`handler`
embeds a NULL pointer (the table's terminating sentinel row). -/
structure prop_handler where
  name : Option String
  desc : Option String
  read_only : Nat
  types : Nat
  handler : Option HandlerId
deriving DecidableEq

/-- The static registry `prop_handlers[]`.  In the source the compression
row reads `.types = prop_object_inode, prop_compression`: per C semantics a
positional initializer after a designated one continues with the field that
follows `.types`, which is `.handler`, so the row has
`types = prop_object_inode` and `handler = prop_compression`.  The
`allocation_hint` row omits `.read_only`, which is therefore
zero-initialized. -/
def prop_handlers : List prop_handler :=
  [ ⟨some "ro", some "read-only status of a subvolume", 0,
      prop_object_subvol, some HandlerId.read_only⟩,
    ⟨some "label", some "label of the filesystem", 0,
      prop_object_dev ||| prop_object_root, some HandlerId.label⟩,
    ⟨some "compression", some "compression algorithm for the file or directory", 0,
      prop_object_inode, some HandlerId.compression⟩,
    ⟨some "allocation_hint", some "hint to store the data/metadata chunks", 0,
      prop_object_dev, some HandlerId.allocation_hint⟩,
    ⟨none, none, 0, 0, none⟩ ]

/-- The non-sentinel rows of the registry (the source iterates until the
row whose `name` is NULL). -/
def registryRows : List prop_handler := prop_handlers.take 4

/-! ### Allocation-hint handler (src/props.c lines 239-332) -/

/-- `allocation_hint_description[]` without its `{0, NULL}` terminator
(the terminator is the end of the list). -/
def allocation_hint_description : List (Nat × String) :=
  [ (BTRFS_DEV_ALLOCATION_PREFERRED_METADATA, "PREFERRED_METADATA"),
    (BTRFS_DEV_ALLOCATION_METADATA_ONLY, "METADATA_ONLY"),
    (BTRFS_DEV_ALLOCATION_PREFERRED_DATA, "PREFERRED_DATA"),
    (BTRFS_DEV_ALLOCATION_DATA_ONLY, "DATA_ONLY") ]

/-- Numeric value of a digit run, most significant first. -/
def digitsVal (ds : List Char) : Nat :=
  ds.foldl (fun acc c => acc * 10 + (c.toNat - 48)) 0

/-- C `isspace`: the space character (32) and the control characters
9 to 13 (tab, newline, vertical tab, form feed, carriage return). -/
def isCSpace (c : Char) : Bool :=
  decide (c.toNat = 32 ∨ (9 ≤ c.toNat ∧ c.toNat ≤ 13))

/-- Models `sscanf(value, "%llu", &v) == 1` (src/props.c line 305):
leading C whitespace is skipped; an optional `+` or `-` sign is consumed
(the `%llu` conversion matches an optionally signed decimal, and per
`strtoull` a `-` yields the unsigned wraparound negation of the
magnitude); the maximal following run of decimal digits is converted,
saturating at `ULLONG_MAX` on overflow as glibc/musl `strtoull` do; any
trailing characters are ignored.  The scan fails (`sscanf` returns 0,
embedded as `none`) when no digit follows. -/
def parse_llu (s : String) : Option Nat :=
  let cs := s.data.dropWhile isCSpace
  let signAndRest : Bool × List Char :=
    match cs with
    | c :: rest =>
      if c.toNat = 45 then (true, rest)
      else if c.toNat = 43 then (false, rest)
      else (false, c :: rest)
    | [] => (false, [])
  let ds := signAndRest.2.takeWhile (fun c => c.isDigit)
  if ds.isEmpty then none
  else
    let m := digitsVal ds
    some (if 2 ^ 64 ≤ m then 2 ^ 64 - 1
          else if signAndRest.1 then (2 ^ 64 - m) % 2 ^ 64
          else m)

/-- The value-acceptance phase of `prop_allocation_hint`'s set path
(src/props.c lines 299-313): first a case-sensitive lookup of the value
among the class names in table order; otherwise `sscanf("%llu")`; a parsed
integer is rejected when it has a bit outside `BTRFS_DEV_ALLOCATION_MASK`
(`v & ~BTRFS_DEV_ALLOCATION_MASK`).  `none` is the `ret = -3` invalid-value
outcome. -/
def accept_hint_value (value : String) : Option Nat :=
  match allocation_hint_description.find? (fun p => value = p.2) with
  | some p => some p.1
  | none =>
    match parse_llu value with
    | none => none
    | some v =>
      if v &&& not64 BTRFS_DEV_ALLOCATION_MASK ≠ 0 then none else some v

/-- The `BTRFS_IOC_DEV_PROPERTIES` write request issued by the set path:
the fields the source fills in `struct btrfs_ioctl_dev_properties`. -/
structure DevPropsReq where
  devid : Nat
  properties : Nat
  type : Nat
deriving DecidableEq

/-- Outcome of one run of the allocation-hint handler after the initial
property read: return code, line printed to stdout, and the property-write
request issued (if any). -/
structure HintOut where
  ret : Int
  output : Option String
  wrote : Option DevPropsReq
deriving DecidableEq

/-- Output line `devid=%d, path=%s: allocation_hint=%s`. -/
def mkHintLine (devid : Nat) (object descr : String) : String :=
  "devid=" ++ toString devid ++ ", path=" ++ object ++ ": allocation_hint=" ++ descr

/-- Output line `devid=%d, path=%s: allocation_hint=unknown:%llu`. -/
def mkHintUnknownLine (devid : Nat) (object : String) (v : Nat) : String :=
  "devid=" ++ toString devid ++ ", path=" ++ object ++ ": allocation_hint=unknown:" ++ toString v

/-- `prop_allocation_hint` (src/props.c lines 282-328) after the resolver
call and the initial `BTRFS_DEV_PROPERTY_TYPE|BTRFS_DEV_PROPERTY_READ`
property read have succeeded: `devid` is the resolved device id, `curType`
the `props.type` value the read returned (a `u64`), `value` the optional
set value, `writeOk` whether the property-write ioctl (if issued)
succeeds (`ret = -4` when it fails). -/
def prop_allocation_hint_core (devid : Nat) (object : String) (value : Option String)
    (curType : Nat) (writeOk : Bool) : HintOut :=
  match value with
  | none =>
    let v := curType &&& BTRFS_DEV_ALLOCATION_MASK
    match allocation_hint_description.find? (fun p => v = p.1) with
    | some p => ⟨0, some (mkHintLine devid object p.2), none⟩
    | none => ⟨0, some (mkHintUnknownLine devid object v), none⟩
  | some value =>
    match accept_hint_value value with
    | none => ⟨-3, none, none⟩
    | some v =>
      let newType := (curType &&& not64 BTRFS_DEV_ALLOCATION_MASK)
        ||| (v &&& BTRFS_DEV_ALLOCATION_MASK)
      ⟨if writeOk then 0 else -4, none,
        some ⟨devid, BTRFS_DEV_PROPERTY_TYPE, newType⟩⟩

/-! ### Read-only-flag handler (src/props.c lines 42-76) -/

/-- Outcome of `prop_read_only`: return code, line printed, whether an
error message was printed, and the boolean passed to
`btrfs_util_set_subvolume_read_only` (if it was called at all). -/
structure ROOut where
  ret : Int
  output : Option String
  errReported : Bool
  setCalled : Option Bool
deriving DecidableEq

/-- `prop_read_only`.  `setRes b` is the outcome (with `errno` on failure)
of the library call `btrfs_util_set_subvolume_read_only(object, b)`;
`getRes` the outcome of `btrfs_util_get_subvolume_read_only`. -/
def prop_read_only (value : Option String) (setRes : Bool → Except Nat Unit)
    (getRes : Except Nat Bool) : ROOut :=
  match value with
  | some v =>
    if v = "true" then
      match setRes true with
      | Except.ok _ => ⟨0, none, false, some true⟩
      | Except.error e => ⟨-(e : Int), none, true, some true⟩
    else if v = "false" then
      match setRes false with
      | Except.ok _ => ⟨0, none, false, some false⟩
      | Except.error e => ⟨-(e : Int), none, true, some false⟩
    else
      ⟨-(EINVAL : Int), none, true, none⟩
  | none =>
    match getRes with
    | Except.error e => ⟨-(e : Int), none, true, none⟩
    | Except.ok b => ⟨0, some ("ro=" ++ if b then "true" else "false"), false, none⟩

/-! ### Compression handler (src/props.c lines 98-168) -/

/-- The xattr namespace concatenation `XATTR_BTRFS_PREFIX + name`
(no separator), src/props.c lines 118-125. -/
def xattr_name_of (name : String) : String := "btrfs." ++ name

/-- The xattr syscalls the compression handler issues on its open file
descriptor, keyed by attribute name; each either fails with an `errno` or
succeeds.  `getsize` is `fgetxattr(fd, key, NULL, 0)` (size probe),
`getvalue key len` is `fgetxattr(fd, key, buf, len)`. -/
structure XattrCalls where
  setxattr : String → String → Except Nat Unit
  getsize : String → Except Nat Nat
  getvalue : String → Nat → Except Nat String

/-- Outcome of `prop_compression`: return code, line printed to stdout,
whether an error message was printed, and the `fsetxattr` call issued
(attribute name and value written), if any. -/
structure CompressionOut where
  ret : Int
  output : Option String
  errReported : Bool
  wrote : Option (String × String)
deriving DecidableEq

/-- `prop_compression`.  `openErr` is `some errno` when
`open_file_or_dir3` fails; `nameAllocOk`/`bufAllocOk` model the two
`malloc` calls (`xattr_name` and the value buffer), which on failure give
`-ENOMEM` with no message.  The first xattr call's `ENOATTR` failure is
downgraded to success with no output; any other failure of it is reported;
a failure of the second read (`getvalue`) is always reported.  On a set,
the values `"no"` and `"none"` are replaced by the empty string before the
`fsetxattr` call. -/
def prop_compression (openErr : Option Nat) (calls : XattrCalls)
    (nameAllocOk bufAllocOk : Bool) (name : String) (value : Option String) :
    CompressionOut :=
  match openErr with
  | some e => ⟨-(e : Int), none, true, none⟩
  | none =>
    if nameAllocOk = false then ⟨-(ENOMEM : Int), none, false, none⟩
    else
      let key := xattr_name_of name
      match value with
      | some v =>
        let v2 := if v = "no" then "" else if v = "none" then "" else v
        match calls.setxattr key v2 with
        | Except.error e =>
          if e = ENOATTR then ⟨0, none, false, some (key, v2)⟩
          else ⟨-(e : Int), none, true, some (key, v2)⟩
        | Except.ok _ => ⟨0, none, false, some (key, v2)⟩
      | none =>
        match calls.getsize key with
        | Except.error e =>
          if e = ENOATTR then ⟨0, none, false, none⟩
          else ⟨-(e : Int), none, true, none⟩
        | Except.ok len =>
          if bufAllocOk = false then ⟨-(ENOMEM : Int), none, false, none⟩
          else
            match calls.getvalue key len with
            | Except.error e => ⟨-(e : Int), none, true, none⟩
            | Except.ok s => ⟨0, some ("compression=" ++ s.take len), false, none⟩

/-- An xattr store: attribute name to stored value. -/
def XattrStore := String → Option String

/-- Modelled from the spec: the kernel's handler for the `btrfs.` xattr
namespace clears the stored property when the written value is empty —
"this clears compression to unset rather than writing a literal word"
(spec §4.4) — rather than keeping a zero-length attribute. -/
def xattrStoreSet (store : XattrStore) (key v : String) : XattrStore :=
  fun k => if k = key then (if v = "" then none else some v) else store k

/-- The xattr syscalls as backed by a concrete store: writes succeed, the
size probe and the value read fail with `ENOATTR` exactly when the
attribute is absent. -/
def callsOfStore (store : XattrStore) : XattrCalls where
  setxattr := fun _ _ => Except.ok ()
  getsize := fun k =>
    match store k with
    | none => Except.error ENOATTR
    | some s => Except.ok s.length
  getvalue := fun k _ =>
    match store k with
    | none => Except.error ENOATTR
    | some s => Except.ok s

/-! ### Device resolver (src/props.c lines 170-237) -/

/-- The fields of `struct btrfs_ioctl_dev_info_args` the resolver reads:
the device id and the device path (`none` embeds an empty/NULL path,
i.e. a missing device). -/
structure DevInfo where
  devid : Nat
  path : Option String
deriving DecidableEq

/-- Result of the candidate scan loop (src/props.c lines 202-230). -/
inductive ScanResult where
  | found (devid : Nat)
  | aborted (e : Int)
  | notFound
deriving DecidableEq

/-- The candidate scan: for each id `i` in turn, `q i` is the pair of
`get_device_info`'s return code and the `dev_info` it filled in, and
`st p` is the `(major, minor)` of `stat(p)` (`none` on stat failure, where
the source returns stat's `-1`).  Ids whose query reports `-ENODEV` and
entries without a path are skipped; any other query failure aborts with
that code; the first id whose stat numbers equal `target` yields its
`dev_info.devid`. -/
def scanIds (q : Nat → Int × DevInfo) (st : String → Option (Nat × Nat))
    (target : Nat × Nat) : List Nat → ScanResult
  | [] => ScanResult.notFound
  | i :: rest =>
    let r := q i
    if r.1 = -(ENODEV : Int) then scanIds q st target rest
    else if r.1 ≠ 0 then ScanResult.aborted r.1
    else
      match r.2.path with
      | none => scanIds q st target rest
      | some p =>
        match st p with
        | none => ScanResult.aborted (-1)
        | some mm =>
          if mm = target then ScanResult.found r.2.devid
          else scanIds q st target rest

/-- Final result of `btrfs_find_devid_and_mnt`. -/
inductive FindResult where
  | ok (devid : Nat)
  | err (e : Int)
deriving DecidableEq

/-- Result of a resolver run together with the fate of the mount-directory
handle: `opened` records that `btrfs_open_dir` succeeded, `closed` that
`close_file_or_dir` ran before the return. -/
structure FindOut where
  res : FindResult
  opened : Bool
  closed : Bool
deriving DecidableEq

/-- `btrfs_find_devid_and_mnt`.  `mountRet` is `get_btrfs_mount`'s return
code, `fd` the return of `btrfs_open_dir` (negative on failure),
`statDev` the `(major, minor)` of `stat(devpath)` (`none` on failure),
`fsInfo` the `BTRFS_IOC_FS_INFO` outcome — `errno` on failure or the
filesystem's `max_id` on success — and `q`/`st` the per-candidate oracles
of `scanIds`.  Note the source's `EPERM` branch returns `-errno` directly,
bypassing the `out:` label that closes the directory handle. -/
def btrfs_find_devid_and_mnt (mountRet : Int) (fd : Int)
    (statDev : Option (Nat × Nat)) (fsInfo : Except Nat Nat)
    (q : Nat → Int × DevInfo) (st : String → Option (Nat × Nat)) : FindOut :=
  if mountRet ≠ 0 then ⟨FindResult.err mountRet, false, false⟩
  else if fd < 0 then ⟨FindResult.err fd, false, false⟩
  else
    match statDev with
    | none => ⟨FindResult.err (-1), true, true⟩
    | some target =>
      match fsInfo with
      | Except.error e =>
        if e = EPERM then ⟨FindResult.err (-(e : Int)), true, false⟩
        else ⟨FindResult.err (-10), true, true⟩
      | Except.ok maxId =>
        match scanIds q st target (List.range (maxId + 1)) with
        | ScanResult.found d => ⟨FindResult.ok d, true, true⟩
        | ScanResult.aborted e => ⟨FindResult.err e, true, true⟩
        | ScanResult.notFound => ⟨FindResult.err (-12), true, true⟩

/-! ### Spec-level predicates for the scan loop -/

/-- Candidate `i` is skipped: its query reports "no such device", or it
succeeds but carries no resolvable path (a missing device). -/
def devSkips (q : Nat → Int × DevInfo) (i : Nat) : Prop :=
  (q i).1 = -(ENODEV : Int) ∨ ((q i).1 = 0 ∧ (q i).2.path = none)

/-- Candidate `i` does not end the scan: it is skipped, or its stat
succeeds with device numbers different from the target's. -/
def devNoMatch (q : Nat → Int × DevInfo) (st : String → Option (Nat × Nat))
    (target : Nat × Nat) (i : Nat) : Prop :=
  devSkips q i ∨
    ((q i).1 = 0 ∧ ∃ p mm, (q i).2.path = some p ∧ st p = some mm ∧ mm ≠ target)

/-- Candidate `i` matches, resolving to devid `d`: query succeeded, the
path stats to exactly the target device numbers, and the reported devid
is `d`. -/
def devMatch (q : Nat → Int × DevInfo) (st : String → Option (Nat × Nat))
    (target : Nat × Nat) (i d : Nat) : Prop :=
  (q i).1 = 0 ∧
    ∃ p, (q i).2.path = some p ∧ st p = some target ∧ (q i).2.devid = d

/-- Candidate `i` aborts the scan with code `e`: its query fails other
than with "no such device" (code forwarded), or its path fails to stat
(the source forwards stat's `-1`). -/
def devAborts (q : Nat → Int × DevInfo) (st : String → Option (Nat × Nat))
    (i : Nat) (e : Int) : Prop :=
  ((q i).1 ≠ -(ENODEV : Int) ∧ (q i).1 ≠ 0 ∧ e = (q i).1) ∨
    ((q i).1 = 0 ∧ ∃ p, (q i).2.path = some p ∧ st p = none ∧ e = -1)

/-! ### Characterization of the scan loop -/

theorem scanIds_cons (q : Nat → Int × DevInfo) (st : String → Option (Nat × Nat))
    (target : Nat × Nat) (i : Nat) (rest : List Nat) :
    scanIds q st target (i :: rest) =
      if (q i).1 = -(ENODEV : Int) then scanIds q st target rest
      else if (q i).1 ≠ 0 then ScanResult.aborted (q i).1
      else
        match (q i).2.path with
        | none => scanIds q st target rest
        | some p =>
          match st p with
          | none => ScanResult.aborted (-1)
          | some mm =>
            if mm = target then ScanResult.found (q i).2.devid
            else scanIds q st target rest := rfl

theorem scanIds_append (q : Nat → Int × DevInfo) (st : String → Option (Nat × Nat))
    (target : Nat × Nat) (l₁ l₂ : List Nat) :
    scanIds q st target (l₁ ++ l₂) =
      match scanIds q st target l₁ with
      | ScanResult.notFound => scanIds q st target l₂
      | r => r := by
  induction l₁ with
  | nil => simp [scanIds]
  | cons i rest ih =>
    simp only [List.cons_append]
    rw [scanIds_cons q st target i (rest ++ l₂), scanIds_cons q st target i rest]
    by_cases h1 : (q i).1 = -(ENODEV : Int)
    · rw [if_pos h1, if_pos h1]
      exact ih
    · rw [if_neg h1, if_neg h1]
      by_cases h2 : (q i).1 = 0
      · have h2' : ¬((q i).1 ≠ 0) := fun h => h h2
        rw [if_neg h2', if_neg h2']
        cases hp : (q i).2.path with
        | none => exact ih
        | some p =>
          dsimp only
          cases hs : st p with
          | none => rfl
          | some mm =>
            dsimp only
            by_cases hm : mm = target
            · rw [if_pos hm, if_pos hm]
            · rw [if_neg hm, if_neg hm]
              exact ih
      · rw [if_pos h2, if_pos h2]

theorem scanIds_singleton_found (q : Nat → Int × DevInfo)
    (st : String → Option (Nat × Nat)) (target : Nat × Nat) (i d : Nat) :
    scanIds q st target [i] = ScanResult.found d ↔ devMatch q st target i d := by
  unfold devMatch
  rw [scanIds_cons q st target i []]
  by_cases h1 : (q i).1 = -(ENODEV : Int)
  · rw [if_pos h1]
    constructor
    · intro h
      exact absurd h (by simp [scanIds])
    · rintro ⟨h0, -⟩
      rw [h0] at h1
      exact absurd h1 (by decide)
  · rw [if_neg h1]
    by_cases h2 : (q i).1 = 0
    · rw [if_neg (fun h => h h2)]
      cases hp : (q i).2.path with
      | none =>
        constructor
        · intro h
          exact absurd h (by simp [scanIds])
        · rintro ⟨-, p, hp', -⟩
          cases hp'
      | some p =>
        dsimp only
        cases hs : st p with
        | none =>
          constructor
          · intro h
            exact ScanResult.noConfusion h
          · rintro ⟨-, p', hp', hs', -⟩
            cases hp'
            rw [hs] at hs'
            cases hs'
        | some mm =>
          dsimp only
          by_cases hm : mm = target
          · rw [if_pos hm]
            subst hm
            constructor
            · intro h
              have hd : (q i).2.devid = d := by injection h
              exact ⟨h2, p, rfl, hs, hd⟩
            · rintro ⟨-, p', hp', hs', hd⟩
              cases hp'
              rw [hd]
          · rw [if_neg hm]
            constructor
            · intro h
              exact absurd h (by simp [scanIds])
            · rintro ⟨-, p', hp', hs', -⟩
              cases hp'
              rw [hs] at hs'
              cases hs'
              exact absurd rfl hm
    · rw [if_pos h2]
      constructor
      · intro h
        exact ScanResult.noConfusion h
      · rintro ⟨h0, -⟩
        exact absurd h0 h2

theorem scanIds_singleton_aborted (q : Nat → Int × DevInfo)
    (st : String → Option (Nat × Nat)) (target : Nat × Nat) (i : Nat) (e : Int) :
    scanIds q st target [i] = ScanResult.aborted e ↔ devAborts q st i e := by
  unfold devAborts
  rw [scanIds_cons q st target i []]
  by_cases h1 : (q i).1 = -(ENODEV : Int)
  · rw [if_pos h1]
    constructor
    · intro h
      exact absurd h (by simp [scanIds])
    · rintro (⟨h0, -, -⟩ | ⟨h0, -⟩)
      · exact absurd h1 h0
      · rw [h0] at h1
        exact absurd h1 (by decide)
  · rw [if_neg h1]
    by_cases h2 : (q i).1 = 0
    · rw [if_neg (fun h => h h2)]
      cases hp : (q i).2.path with
      | none =>
        constructor
        · intro h
          exact absurd h (by simp [scanIds])
        · rintro (⟨-, h0, -⟩ | ⟨-, p, hp', -, -⟩)
          · exact absurd h2 h0
          · cases hp'
      | some p =>
        dsimp only
        cases hs : st p with
        | none =>
          constructor
          · intro h
            have he : (-1 : Int) = e := by injection h
            exact Or.inr ⟨h2, p, rfl, hs, he.symm⟩
          · rintro (⟨-, h0, -⟩ | ⟨-, p', hp', hs', he⟩)
            · exact absurd h2 h0
            · rw [he]
        | some mm =>
          dsimp only
          by_cases hm : mm = target
          · rw [if_pos hm]
            constructor
            · intro h
              exact ScanResult.noConfusion h
            · rintro (⟨-, h0, -⟩ | ⟨-, p', hp', hs', -⟩)
              · exact absurd h2 h0
              · cases hp'
                rw [hs] at hs'
                cases hs'
          · rw [if_neg hm]
            constructor
            · intro h
              exact absurd h (by simp [scanIds])
            · rintro (⟨-, h0, -⟩ | ⟨-, p', hp', hs', -⟩)
              · exact absurd h2 h0
              · cases hp'
                rw [hs] at hs'
                cases hs'
    · rw [if_pos h2]
      constructor
      · intro h
        have he : (q i).1 = e := by injection h
        exact Or.inl ⟨h1, h2, he.symm⟩
      · rintro (⟨-, -, he⟩ | ⟨h0, -⟩)
        · rw [he]
        · exact absurd h0 h2

theorem scanIds_singleton_notFound (q : Nat → Int × DevInfo)
    (st : String → Option (Nat × Nat)) (target : Nat × Nat) (i : Nat) :
    scanIds q st target [i] = ScanResult.notFound ↔ devNoMatch q st target i := by
  unfold devNoMatch devSkips
  rw [scanIds_cons q st target i []]
  by_cases h1 : (q i).1 = -(ENODEV : Int)
  · rw [if_pos h1]
    constructor
    · intro _
      exact Or.inl (Or.inl h1)
    · intro _
      rfl
  · rw [if_neg h1]
    by_cases h2 : (q i).1 = 0
    · rw [if_neg (fun h => h h2)]
      cases hp : (q i).2.path with
      | none =>
        constructor
        · intro _
          exact Or.inl (Or.inr ⟨h2, rfl⟩)
        · intro _
          rfl
      | some p =>
        dsimp only
        cases hs : st p with
        | none =>
          constructor
          · intro h
            exact ScanResult.noConfusion h
          · rintro ((h0 | ⟨-, hp'⟩) | ⟨-, p', mm, hp', hs', -⟩)
            · exact absurd h0 h1
            · cases hp'
            · cases hp'
              rw [hs] at hs'
              cases hs'
        | some mm =>
          dsimp only
          by_cases hm : mm = target
          · rw [if_pos hm]
            constructor
            · intro h
              exact ScanResult.noConfusion h
            · rintro ((h0 | ⟨-, hp'⟩) | ⟨-, p', mm', hp', hs', hne⟩)
              · exact absurd h0 h1
              · cases hp'
              · cases hp'
                rw [hs] at hs'
                cases hs'
                exact absurd hm hne
          · rw [if_neg hm]
            constructor
            · intro _
              exact Or.inr ⟨h2, p, mm, rfl, hs, hm⟩
            · intro _
              rfl
    · rw [if_pos h2]
      constructor
      · intro h
        exact ScanResult.noConfusion h
      · rintro ((h0 | ⟨h0, -⟩) | ⟨h0, -⟩)
        · exact absurd h0 h1
        · exact absurd h0 h2
        · exact absurd h0 h2

theorem scanIds_range_char (q : Nat → Int × DevInfo)
    (st : String → Option (Nat × Nat)) (target : Nat × Nat) (n : Nat) :
    (∀ d, scanIds q st target (List.range n) = ScanResult.found d ↔
      ∃ i, i < n ∧ devMatch q st target i d ∧ ∀ j, j < i → devNoMatch q st target j) ∧
    (∀ e, scanIds q st target (List.range n) = ScanResult.aborted e ↔
      ∃ i, i < n ∧ devAborts q st i e ∧ ∀ j, j < i → devNoMatch q st target j) ∧
    (scanIds q st target (List.range n) = ScanResult.notFound ↔
      ∀ i, i < n → devNoMatch q st target i) := by
  induction n with
  | zero => simp [scanIds]
  | succ n ih =>
    obtain ⟨ihF, ihA, ihN⟩ := ih
    have happ : scanIds q st target (List.range (n + 1)) =
        match scanIds q st target (List.range n) with
        | ScanResult.notFound => scanIds q st target [n]
        | r => r := by
      rw [List.range_succ, scanIds_append]
    refine ⟨?_, ?_, ?_⟩
    · intro d
      rw [happ]
      cases hS : scanIds q st target (List.range n) with
      | found d0 =>
        simp only []
        constructor
        · intro h
          obtain ⟨i, hi, hm, hall⟩ := (ihF d).mp (hS.trans h)
          exact ⟨i, Nat.lt_succ_of_lt hi, hm, hall⟩
        · rintro ⟨i, hi, hm, hall⟩
          rcases Nat.lt_succ_iff_lt_or_eq.mp hi with hi' | rfl
          · exact hS ▸ (ihF d).mpr ⟨i, hi', hm, hall⟩
          · exact absurd (ihN.mpr fun j hj => hall j hj) (hS ▸ fun h => by cases h)
      | aborted e0 =>
        simp only []
        constructor
        · intro h
          cases h
        · rintro ⟨i, hi, hm, hall⟩
          rcases Nat.lt_succ_iff_lt_or_eq.mp hi with hi' | rfl
          · exact absurd ((ihF d).mpr ⟨i, hi', hm, hall⟩) (by rw [hS]; intro h; cases h)
          · exact absurd (ihN.mpr fun j hj => hall j hj) (by rw [hS]; intro h; cases h)
      | notFound =>
        simp only []
        have hall_n : ∀ i, i < n → devNoMatch q st target i := ihN.mp hS
        rw [scanIds_singleton_found]
        constructor
        · intro hm
          exact ⟨n, Nat.lt_succ_self n, hm, hall_n⟩
        · rintro ⟨i, hi, hm, hall⟩
          rcases Nat.lt_succ_iff_lt_or_eq.mp hi with hi' | rfl
          · exact absurd ((ihF d).mpr ⟨i, hi', hm, hall⟩) (by rw [hS]; intro h; cases h)
          · exact hm
    · intro e
      rw [happ]
      cases hS : scanIds q st target (List.range n) with
      | found d0 =>
        simp only []
        constructor
        · intro h
          cases h
        · rintro ⟨i, hi, hm, hall⟩
          rcases Nat.lt_succ_iff_lt_or_eq.mp hi with hi' | rfl
          · exact absurd ((ihA e).mpr ⟨i, hi', hm, hall⟩) (by rw [hS]; intro h; cases h)
          · exact absurd (ihN.mpr fun j hj => hall j hj) (by rw [hS]; intro h; cases h)
      | aborted e0 =>
        simp only []
        constructor
        · intro h
          obtain ⟨i, hi, hm, hall⟩ := (ihA e).mp (hS.trans h)
          exact ⟨i, Nat.lt_succ_of_lt hi, hm, hall⟩
        · rintro ⟨i, hi, hm, hall⟩
          rcases Nat.lt_succ_iff_lt_or_eq.mp hi with hi' | rfl
          · exact hS ▸ (ihA e).mpr ⟨i, hi', hm, hall⟩
          · exact absurd (ihN.mpr fun j hj => hall j hj) (hS ▸ fun h => by cases h)
      | notFound =>
        simp only []
        have hall_n : ∀ i, i < n → devNoMatch q st target i := ihN.mp hS
        rw [scanIds_singleton_aborted]
        constructor
        · intro hm
          exact ⟨n, Nat.lt_succ_self n, hm, hall_n⟩
        · rintro ⟨i, hi, hm, hall⟩
          rcases Nat.lt_succ_iff_lt_or_eq.mp hi with hi' | rfl
          · exact absurd ((ihA e).mpr ⟨i, hi', hm, hall⟩) (by rw [hS]; intro h; cases h)
          · exact hm
    · rw [happ]
      cases hS : scanIds q st target (List.range n) with
      | found d0 =>
        simp only []
        constructor
        · intro h
          cases h
        · intro hall
          exact absurd (ihN.mpr fun j hj => hall j (Nat.lt_succ_of_lt hj))
            (by rw [hS]; intro h; cases h)
      | aborted e0 =>
        simp only []
        constructor
        · intro h
          cases h
        · intro hall
          exact absurd (ihN.mpr fun j hj => hall j (Nat.lt_succ_of_lt hj))
            (by rw [hS]; intro h; cases h)
      | notFound =>
        simp only []
        have hall_n : ∀ i, i < n → devNoMatch q st target i := ihN.mp hS
        rw [scanIds_singleton_notFound]
        constructor
        · intro hm i hi
          rcases Nat.lt_succ_iff_lt_or_eq.mp hi with hi' | rfl
          · exact hall_n i hi'
          · exact hm
        · intro hall
          exact hall n (Nat.lt_succ_self n)

/-! ### Bit-level helper lemmas -/

theorem testBit_UINT64_FULL (i : Nat) : UINT64_FULL.testBit i = decide (i < 64) := by
  rw [UINT64_FULL]
  exact Nat.testBit_two_pow_sub_one 64 i

theorem testBit_alloc_mask (i : Nat) :
    BTRFS_DEV_ALLOCATION_MASK.testBit i = decide (i < 3) := by
  rw [BTRFS_DEV_ALLOCATION_MASK, BTRFS_DEV_ALLOCATION_MASK_BIT_COUNT]
  exact Nat.testBit_two_pow_sub_one 3 i

theorem testBit_not64 (m i : Nat) :
    (not64 m).testBit i = (decide (i < 64)).xor (m.testBit i) := by
  rw [not64, Nat.testBit_xor, testBit_UINT64_FULL]

/-! ### Concrete oracles used by witnesses -/

/-- A concrete device table: id 0 detached (`-ENODEV`), id 1 a device at
`/dev/sdb` with devid 7, higher ids at `/dev/sdc` with devid 9. -/
def devQ0 : Nat → Int × DevInfo := fun i =>
  if i = 0 then (-(ENODEV : Int), ⟨0, none⟩)
  else if i = 1 then (0, ⟨7, some "/dev/sdb"⟩)
  else (0, ⟨9, some "/dev/sdc"⟩)

/-- Concrete stat oracle: `/dev/sdb` has device numbers `(8, 1)`, anything
else `(8, 2)`. -/
def devSt0 : String → Option (Nat × Nat) := fun s =>
  if s = "/dev/sdb" then some (8, 1) else some (8, 2)

/-! ### Claims -/

/-- C1: the device resolver scans candidate ids `0..max_id` in ascending
order; ids reporting "no such device" and entries without a resolvable
path are skipped; any other per-device query failure aborts with that
failure; the first candidate whose stat `(major, minor)` equals the input
path's is returned immediately as the resolved devid; a permission-denied
filesystem-info query is returned immediately (for every scan oracle, i.e.
without scanning); and exhausting all ids without a match yields the
not-found result (the source's `-12`). -/
theorem c1_device_resolver_scan (q : Nat → Int × DevInfo)
    (st : String → Option (Nat × Nat)) (target : Nat × Nat)
    (maxId d : Nat) (e : Int) (fd : Int) :
    (scanIds q st target (List.range (maxId + 1)) = ScanResult.found d ↔
      ∃ i, i ≤ maxId ∧ devMatch q st target i d ∧
        ∀ j, j < i → devNoMatch q st target j) ∧
    (scanIds q st target (List.range (maxId + 1)) = ScanResult.aborted e ↔
      ∃ i, i ≤ maxId ∧ devAborts q st i e ∧
        ∀ j, j < i → devNoMatch q st target j) ∧
    (scanIds q st target (List.range (maxId + 1)) = ScanResult.notFound ↔
      ∀ i, i ≤ maxId → devNoMatch q st target i) ∧
    (0 ≤ fd →
      btrfs_find_devid_and_mnt 0 fd (some target) (Except.error EPERM) q st =
        ⟨FindResult.err (-(EPERM : Int)), true, false⟩) ∧
    (0 ≤ fd → scanIds q st target (List.range (maxId + 1)) = ScanResult.found d →
      btrfs_find_devid_and_mnt 0 fd (some target) (Except.ok maxId) q st =
        ⟨FindResult.ok d, true, true⟩) ∧
    (0 ≤ fd → scanIds q st target (List.range (maxId + 1)) = ScanResult.aborted e →
      btrfs_find_devid_and_mnt 0 fd (some target) (Except.ok maxId) q st =
        ⟨FindResult.err e, true, true⟩) ∧
    (0 ≤ fd → scanIds q st target (List.range (maxId + 1)) = ScanResult.notFound →
      btrfs_find_devid_and_mnt 0 fd (some target) (Except.ok maxId) q st =
        ⟨FindResult.err (-12), true, true⟩) := by
  obtain ⟨hF, hA, hN⟩ := scanIds_range_char q st target (maxId + 1)
  simp only [Nat.lt_succ_iff] at hF hA hN
  have hfd : ∀ h : (0 : Int) ≤ fd, ¬fd < 0 := fun h => by omega
  refine ⟨hF d, hA e, hN, ?_, ?_, ?_, ?_⟩
  · intro h
    simp [btrfs_find_devid_and_mnt, hfd h]
  · intro h hscan
    simp [btrfs_find_devid_and_mnt, hfd h, hscan]
  · intro h hscan
    simp [btrfs_find_devid_and_mnt, hfd h, hscan]
  · intro h hscan
    simp [btrfs_find_devid_and_mnt, hfd h, hscan]

/-- Witness for C1: on the concrete device table, the EPERM outcome is
returned as such, and the scan finds devid 7 at candidate id 1. -/
theorem c1_witness :
    btrfs_find_devid_and_mnt 0 3 (some (8, 1)) (Except.error EPERM) devQ0 devSt0 =
      ⟨FindResult.err (-1), true, false⟩ ∧
    btrfs_find_devid_and_mnt 0 3 (some (8, 1)) (Except.ok 2) devQ0 devSt0 =
      ⟨FindResult.ok 7, true, true⟩ := by
  have h := c1_device_resolver_scan devQ0 devSt0 (8, 1) 2 7 0 3
  refine ⟨h.2.2.2.1 (by decide), ?_⟩
  refine h.2.2.2.2.1 (by decide) ?_
  refine h.1.mpr ⟨1, by omega, ⟨rfl, "/dev/sdb", rfl, rfl, rfl⟩, ?_⟩
  intro j hj
  have hj0 : j = 0 := by omega
  subst hj0
  exact Or.inl (Or.inl rfl)

/-- C8 (code bug): on the permission-denied path of the device resolver,
the opened mount-directory handle is not closed before the return — the
source returns `-errno` directly instead of jumping to the `out:` label
that calls `close_file_or_dir`. -/
theorem c8_eperm_path_leaks_dir_handle :
    (btrfs_find_devid_and_mnt 0 3 (some (8, 1)) (Except.error EPERM) devQ0 devSt0).opened
      = true ∧
    (btrfs_find_devid_and_mnt 0 3 (some (8, 1)) (Except.error EPERM) devQ0 devSt0).closed
      = false ∧
    (btrfs_find_devid_and_mnt 0 3 (some (8, 1)) (Except.error EPERM) devQ0 devSt0).res
      = FindResult.err (-(EPERM : Int)) :=
  ⟨rfl, rfl, rfl⟩

/-- C6: every non-sentinel registry row has a name unique across the
registry, a non-empty applicable-types set and a non-null handler; in
particular the compression row — despite its positional field
initialization — has exactly the inode type and the compression handler. -/
theorem c6_registry_invariants :
    List.Pairwise (fun a b => a.name ≠ b.name) registryRows ∧
    (∀ e ∈ registryRows, e.name ≠ none ∧ e.types ≠ 0 ∧ e.handler ≠ none) ∧
    (∃ e ∈ registryRows, e.name = some "compression" ∧
      e.types = prop_object_inode ∧ e.handler = some HandlerId.compression) := by
  decide

/-- C2: an accepted allocation-hint set value is merged read-modify-write
into the current full type mask: the issued property-write request keeps
every bit outside the allocation sub-mask at its prior value, carries the
new value on every bit inside the sub-mask, and selects only the type
field. -/
theorem c2_set_is_read_modify_write (devid : Nat) (object : String) (value : String)
    (curType v : Nat) (writeOk : Bool)
    (hacc : accept_hint_value value = some v) (hlt : curType < 2 ^ 64) :
    ∃ req : DevPropsReq,
      (prop_allocation_hint_core devid object (some value) curType writeOk).wrote
        = some req ∧
      req.devid = devid ∧
      req.properties = BTRFS_DEV_PROPERTY_TYPE ∧
      (∀ i, BTRFS_DEV_ALLOCATION_MASK.testBit i = false →
        req.type.testBit i = curType.testBit i) ∧
      (∀ i, BTRFS_DEV_ALLOCATION_MASK.testBit i = true →
        req.type.testBit i = v.testBit i) := by
  refine ⟨⟨devid, BTRFS_DEV_PROPERTY_TYPE,
    (curType &&& not64 BTRFS_DEV_ALLOCATION_MASK) |||
      (v &&& BTRFS_DEV_ALLOCATION_MASK)⟩, ?_, rfl, rfl, ?_, ?_⟩
  · simp [prop_allocation_hint_core, hacc]
  · intro i hbit
    by_cases hi : i < 64
    · simp [Nat.testBit_or, Nat.testBit_and, testBit_not64, hbit, hi]
    · have h64 : (64 : Nat) ≤ i := le_of_not_lt hi
      have hc : curType.testBit i = false :=
        Nat.testBit_lt_two_pow
          (lt_of_lt_of_le hlt (Nat.pow_le_pow_right (by norm_num) h64))
      simp [Nat.testBit_or, Nat.testBit_and, testBit_not64, hbit, hi, hc]
  · intro i hbit
    have hi3 : i < 3 := by
      rw [testBit_alloc_mask] at hbit
      exact of_decide_eq_true hbit
    have hi : i < 64 := by omega
    simp [Nat.testBit_or, Nat.testBit_and, testBit_not64, hbit, hi]

/-- Witness for C2: setting `PREFERRED_METADATA`, and the sign-prefixed
accepted integer `"+3"`, on a device whose current type mask is 48 (bits
outside the allocation sub-mask). -/
theorem c2_witness :
    accept_hint_value "PREFERRED_METADATA" = some 1 ∧
    accept_hint_value "+3" = some 3 ∧ (48 : Nat) < 2 ^ 64 ∧
    (∃ req : DevPropsReq,
      (prop_allocation_hint_core 5 "/dev/sda" (some "PREFERRED_METADATA") 48 true).wrote
        = some req ∧
      req.devid = 5 ∧
      req.properties = BTRFS_DEV_PROPERTY_TYPE ∧
      (∀ i, BTRFS_DEV_ALLOCATION_MASK.testBit i = false →
        req.type.testBit i = (48 : Nat).testBit i) ∧
      (∀ i, BTRFS_DEV_ALLOCATION_MASK.testBit i = true →
        req.type.testBit i = (1 : Nat).testBit i)) ∧
    (∃ req : DevPropsReq,
      (prop_allocation_hint_core 5 "/dev/sda" (some "+3") 48 true).wrote
        = some req ∧
      req.devid = 5 ∧
      req.properties = BTRFS_DEV_PROPERTY_TYPE ∧
      (∀ i, BTRFS_DEV_ALLOCATION_MASK.testBit i = false →
        req.type.testBit i = (48 : Nat).testBit i) ∧
      (∀ i, BTRFS_DEV_ALLOCATION_MASK.testBit i = true →
        req.type.testBit i = (3 : Nat).testBit i)) :=
  ⟨by decide, by decide, by norm_num,
    c2_set_is_read_modify_write 5 "/dev/sda" "PREFERRED_METADATA" 48 1 true
      (by decide) (by norm_num),
    c2_set_is_read_modify_write 5 "/dev/sda" "+3" 48 3 true
      (by decide) (by norm_num)⟩

/-- C3: an allocation-hint set value that is not one of the four class
names and either fails to parse as an integer or parses to an integer with
a bit outside the allocation sub-mask yields the invalid-value result
(`ret = -3`) with no property-write issued. -/
theorem c3_invalid_values_rejected (devid : Nat) (object : String) (curType : Nat)
    (writeOk : Bool) (value : String)
    (hname : ∀ p ∈ allocation_hint_description, value ≠ p.2)
    (hparse : ∀ v, parse_llu value = some v →
      v &&& not64 BTRFS_DEV_ALLOCATION_MASK ≠ 0) :
    prop_allocation_hint_core devid object (some value) curType writeOk =
      ⟨-3, none, none⟩ := by
  have hfind : allocation_hint_description.find? (fun p => value = p.2) = none := by
    rw [List.find?_eq_none]
    intro p hp
    simp only [decide_eq_true_eq]
    exact hname p hp
  have haccept : accept_hint_value value = none := by
    unfold accept_hint_value
    rw [hfind]
    cases hv : parse_llu value with
    | none => rfl
    | some v =>
      dsimp only
      rw [if_pos (hparse v hv)]
  simp [prop_allocation_hint_core, haccept]

/-- Witness for C3: `"8"` parses but has a bit outside the 3-bit sub-mask;
`"abc"` is neither a class name nor parseable. -/
theorem c3_witness :
    prop_allocation_hint_core 1 "/dev/sda" (some "8") 0 true = ⟨-3, none, none⟩ ∧
    prop_allocation_hint_core 1 "/dev/sda" (some "abc") 0 true = ⟨-3, none, none⟩ := by
  constructor
  · refine c3_invalid_values_rejected 1 "/dev/sda" 0 true "8" (by decide) ?_
    intro v hv
    have h8 : parse_llu "8" = some 8 := by decide
    rw [h8] at hv
    cases hv
    decide
  · refine c3_invalid_values_rejected 1 "/dev/sda" 0 true "abc" (by decide) ?_
    intro v hv
    have habc : parse_llu "abc" = none := by decide
    rw [habc] at hv
    cases hv

/-- C9 (counterexample): at stored type value 5 (no class matches the
sub-mask), the get output line is
`devid=1, path=/dev/sda: allocation_hint=unknown:5`, not the bare
`allocation_hint=5` form the claim states. -/
theorem c9_counterexample :
    (prop_allocation_hint_core 1 "/dev/sda" none 5 true).output =
      some "devid=1, path=/dev/sda: allocation_hint=unknown:5" ∧
    (prop_allocation_hint_core 1 "/dev/sda" none 5 true).output ≠
      some "allocation_hint=5" := by
  constructor
  · rfl
  · decide

/-- C9 (amended): the allocation sub-mask extracted from the stored type
value is compared against the class table in order; the output line is
`devid=<id>, path=<path>: allocation_hint=<NAME>` for the first matching
class, and `devid=<id>, path=<path>: allocation_hint=unknown:<number>`
when no class value equals the sub-mask exactly. -/
theorem c9_amended_get_output (devid : Nat) (object : String) (curType : Nat)
    (writeOk : Bool) :
    (∃ k, ∃ hk : k < allocation_hint_description.length,
      (allocation_hint_description.get ⟨k, hk⟩).1 =
        curType &&& BTRFS_DEV_ALLOCATION_MASK ∧
      (∀ j, ∀ hj : j < allocation_hint_description.length, j < k →
        (allocation_hint_description.get ⟨j, hj⟩).1 ≠
          curType &&& BTRFS_DEV_ALLOCATION_MASK) ∧
      (prop_allocation_hint_core devid object none curType writeOk).output =
        some (mkHintLine devid object (allocation_hint_description.get ⟨k, hk⟩).2)) ∨
    ((∀ k, ∀ hk : k < allocation_hint_description.length,
      (allocation_hint_description.get ⟨k, hk⟩).1 ≠
        curType &&& BTRFS_DEV_ALLOCATION_MASK) ∧
      (prop_allocation_hint_core devid object none curType writeOk).output =
        some (mkHintUnknownLine devid object
          (curType &&& BTRFS_DEV_ALLOCATION_MASK))) := by
  obtain ⟨w, hw⟩ : ∃ w, curType &&& BTRFS_DEV_ALLOCATION_MASK = w := ⟨_, rfl⟩
  have hw7 : w ≤ 7 := by
    rw [← hw]
    exact Nat.and_le_right
  simp only [prop_allocation_hint_core, hw]
  interval_cases w
  · exact Or.inl ⟨2, by decide, by decide, by decide, rfl⟩
  · exact Or.inl ⟨0, by decide, by decide, by decide, rfl⟩
  · exact Or.inl ⟨1, by decide, by decide, by decide, rfl⟩
  · exact Or.inl ⟨3, by decide, by decide, by decide, rfl⟩
  · exact Or.inr ⟨by decide, rfl⟩
  · exact Or.inr ⟨by decide, rfl⟩
  · exact Or.inr ⟨by decide, rfl⟩
  · exact Or.inr ⟨by decide, rfl⟩

/-- C10: a set value consisting of digits followed by trailing junk, such
as `"3x"`, is not rejected: the `sscanf`-style acceptance reads the leading
numeric prefix, so the handler behaves exactly as for `"3"` and never
returns the invalid-value code. -/
theorem c10_trailing_junk_parsed_as_prefix :
    accept_hint_value "3x" = some 3 ∧
    (∀ devid object curType writeOk,
      prop_allocation_hint_core devid object (some "3x") curType writeOk =
        prop_allocation_hint_core devid object (some "3") curType writeOk) ∧
    (∀ devid object curType writeOk,
      (prop_allocation_hint_core devid object (some "3x") curType writeOk).ret ≠ -3) := by
  refine ⟨by decide, ?_, ?_⟩
  · intro devid object curType writeOk
    rfl
  · intro devid object curType writeOk
    have hred : prop_allocation_hint_core devid object (some "3x") curType writeOk =
        ⟨if writeOk then 0 else -4, none,
          some ⟨devid, BTRFS_DEV_PROPERTY_TYPE,
            (curType &&& not64 BTRFS_DEV_ALLOCATION_MASK) |||
              (3 &&& BTRFS_DEV_ALLOCATION_MASK)⟩⟩ := rfl
    rw [hred]
    cases writeOk <;> simp

/-- C4: setting compression to `"none"` writes the empty string (clearing
the attribute), and a following get succeeds with no output line and no
error report, on every starting xattr store. -/
theorem c4_compression_none_roundtrip (store : XattrStore) :
    prop_compression none (callsOfStore store) true true "compression" (some "none") =
      ⟨0, none, false, some ("btrfs.compression", "")⟩ ∧
    prop_compression none (callsOfStore (xattrStoreSet store "btrfs.compression" ""))
      true true "compression" none = ⟨0, none, false, none⟩ :=
  ⟨rfl, rfl⟩

/-- C5: a compression get whose size probe fails with `ENOATTR` succeeds
with no output and no error report; a probe failing with any other errno,
or a failing second read, yields that error with a report. -/
theorem c5_compression_get_error_handling (calls : XattrCalls) (name : String) :
    (calls.getsize (xattr_name_of name) = Except.error ENOATTR →
      prop_compression none calls true true name none = ⟨0, none, false, none⟩) ∧
    (∀ e, calls.getsize (xattr_name_of name) = Except.error e → e ≠ ENOATTR →
      prop_compression none calls true true name none = ⟨-(e : Int), none, true, none⟩) ∧
    (∀ len e, calls.getsize (xattr_name_of name) = Except.ok len →
      calls.getvalue (xattr_name_of name) len = Except.error e →
      prop_compression none calls true true name none = ⟨-(e : Int), none, true, none⟩) := by
  refine ⟨?_, ?_, ?_⟩
  · intro h
    simp [prop_compression, h]
  · intro e h hne
    simp [prop_compression, h, hne]
  · intro len e hsz hval
    simp [prop_compression, hsz, hval]

/-- Concrete xattr backend: the attribute is absent. -/
def xcAbsent : XattrCalls where
  setxattr := fun _ _ => Except.ok ()
  getsize := fun _ => Except.error ENOATTR
  getvalue := fun _ _ => Except.error ENOATTR

/-- Concrete xattr backend: reads fail with `EACCES` (13). -/
def xcDenied : XattrCalls where
  setxattr := fun _ _ => Except.ok ()
  getsize := fun _ => Except.error 13
  getvalue := fun _ _ => Except.error 13

/-- Concrete xattr backend: the size probe succeeds but the value read
fails with `EIO` (5). -/
def xcReadFail : XattrCalls where
  setxattr := fun _ _ => Except.ok ()
  getsize := fun _ => Except.ok 4
  getvalue := fun _ _ => Except.error 5

/-- Witness for C5: the three error-handling branches at concrete
backends. -/
theorem c5_witness :
    prop_compression none xcAbsent true true "compression" none =
      ⟨0, none, false, none⟩ ∧
    prop_compression none xcDenied true true "compression" none =
      ⟨-13, none, true, none⟩ ∧
    prop_compression none xcReadFail true true "compression" none =
      ⟨-5, none, true, none⟩ :=
  ⟨(c5_compression_get_error_handling xcAbsent "compression").1 rfl,
   (c5_compression_get_error_handling xcDenied "compression").2.1 13 rfl (by decide),
   (c5_compression_get_error_handling xcReadFail "compression").2.2 4 5 rfl rfl⟩

/-- C7: the read-only set path accepts only the literal strings `"true"`
and `"false"`; anything else yields `-EINVAL` without calling the library
set-operation; an accepted value is passed to the library call, whose
failure is translated to `-errno`. -/
theorem c7_read_only_set_validation (v : String) (setRes : Bool → Except Nat Unit)
    (getRes : Except Nat Bool) :
    (v ≠ "true" → v ≠ "false" →
      prop_read_only (some v) setRes getRes = ⟨-(EINVAL : Int), none, true, none⟩) ∧
    ((prop_read_only (some "true") setRes getRes).setCalled = some true) ∧
    ((prop_read_only (some "false") setRes getRes).setCalled = some false) ∧
    (setRes true = Except.ok () →
      prop_read_only (some "true") setRes getRes = ⟨0, none, false, some true⟩) ∧
    (∀ e, setRes true = Except.error e →
      prop_read_only (some "true") setRes getRes = ⟨-(e : Int), none, true, some true⟩) ∧
    (setRes false = Except.ok () →
      prop_read_only (some "false") setRes getRes = ⟨0, none, false, some false⟩) ∧
    (∀ e, setRes false = Except.error e →
      prop_read_only (some "false") setRes getRes =
        ⟨-(e : Int), none, true, some false⟩) := by
  refine ⟨?_, ?_, ?_, ?_, ?_, ?_, ?_⟩
  · intro ht hf
    simp [prop_read_only, ht, hf]
  · cases hs : setRes true <;> simp [prop_read_only, hs]
  · cases hs : setRes false <;> simp [prop_read_only, hs]
  · intro h
    simp [prop_read_only, h]
  · intro e h
    simp [prop_read_only, h]
  · intro h
    simp [prop_read_only, h]
  · intro e h
    simp [prop_read_only, h]

/-- Concrete library backend whose set-operation always succeeds. -/
def roSetOk : Bool → Except Nat Unit := fun _ => Except.ok ()

/-- Concrete library backend whose set-operation fails with `EACCES`. -/
def roSetFail : Bool → Except Nat Unit := fun _ => Except.error 13

/-- Witness for C7: a bogus value is rejected without a library call, an
accepted value reaches the library, and a library failure becomes
`-errno`. -/
theorem c7_witness :
    prop_read_only (some "bogus") roSetOk (Except.ok true) =
      ⟨-(EINVAL : Int), none, true, none⟩ ∧
    prop_read_only (some "true") roSetOk (Except.ok true) =
      ⟨0, none, false, some true⟩ ∧
    prop_read_only (some "false") roSetFail (Except.ok true) =
      ⟨-13, none, true, some false⟩ :=
  ⟨(c7_read_only_set_validation "bogus" roSetOk (Except.ok true)).1
      (by decide) (by decide),
   (c7_read_only_set_validation "x" roSetOk (Except.ok true)).2.2.2.1 rfl,
   (c7_read_only_set_validation "x" roSetFail (Except.ok true)).2.2.2.2.2.2 13 rfl⟩

end Props
